import Mathlib

/-!
Verification of `check_couchbase.py` against its design specification.

The script is embedded shallowly, following CPython 3 semantics:

* Python numbers are modelled as exact rationals (`ℚ`); the float rounding of
  CPython is abstracted away, which is harmless for the properties below.
* Fallible Python code is modelled with `Except PyErr`; each `PyErr`
  constructor names the CPython exception class that the corresponding
  operation raises.
* A Python variable that may hold either a list of results or `None`
  (the script rebinds `results` to the return value of helpers that can
  `return` without a value) is modelled as `Option (List CheckResult)`.
* Dictionaries are modelled as association lists; a configuration or rule
  dictionary whose relevant keys are fixed is modelled as a structure, with
  `Option` marking keys that may be absent or set to `None`.
-/

namespace CheckCouchbase

/-- CPython exception classes raised by the embedded code. -/
inductive PyErr where
  | typeError
  | zeroDivisionError
  | nameError
  | keyError
  | attributeError
  | indexError
  | systemExit
  deriving DecidableEq, Repr

/-- A dynamically typed Python value as it flows through the script:
a number, a string, or a list of numbers (a raw samples series). -/
inductive Value where
  | num (q : ℚ)
  | str (s : String)
  | list (l : List ℚ)
  deriving DecidableEq, Repr

/-- One entry of a fetched statistics document: either an ordered series of
numeric samples or a single scalar value. -/
inductive StatValue where
  | series (l : List ℚ)
  | scalar (v : Value)
  deriving DecidableEq, Repr

/-- A fetched statistics document: metric name to stat entry. -/
abbrev SampleMap := List (String × StatValue)

/-- Python `s.split(c)` for a one-character separator, on the character list. -/
def splitAux (c : Char) : List Char → List Char → List String
  | [], acc => [String.mk acc.reverse]
  | x :: xs, acc =>
    if x = c then String.mk acc.reverse :: splitAux c xs []
    else splitAux c xs (x :: acc)

/-- Python `s.split(c)` for a one-character separator. -/
def pySplit (s : String) (c : Char) : List String :=
  splitAux c s.data []

/-- Python `node.split(":")[0]` (index 0 always exists: `split` is nonempty). -/
def hostOf (hostname : String) : String :=
  (pySplit hostname ':').headD ""

/-- Python `<` on two dynamic values (CPython 3): numbers compare numerically,
strings and lists lexicographically, and a mixed-type ordering comparison
raises `TypeError`. -/
def listLt : List ℚ → List ℚ → Bool
  | _, [] => false
  | [], _ :: _ => true
  | a :: as, b :: bs => if a < b then true else if b < a then false else listLt as bs

def valueLt : Value → Value → Except PyErr Bool
  | .num a, .num b => .ok (decide (a < b))
  | .str a, .str b => .ok (decide (a < b))
  | .list a, .list b => .ok (listLt a b)
  | _, _ => .error .typeError

/-- Python `==` on two dynamic values: mixed types are unequal, never an error. -/
def pyEq : Value → Value → Bool
  | .num a, .num b => decide (a = b)
  | .str a, .str b => a == b
  | .list a, .list b => decide (a = b)
  | _, _ => false

/-- Error-propagating boolean negation (Python `>=` is the negation of `<`
for the total orders involved, raising on the same mixed-type operands). -/
def notE : Except PyErr Bool → Except PyErr Bool
  | .ok b => .ok (!b)
  | .error e => .error e

/-- Embedding of `compare` (check_couchbase.py lines 163-169): dynamic
dispatch over the five-operator table; an unknown operator string raises
`KeyError` on the table lookup. -/
def compare (inp : Value) (relate : String) (cut : Value) : Except PyErr Bool :=
  if relate = ">" then valueLt cut inp
  else if relate = "<" then valueLt inp cut
  else if relate = ">=" then notE (valueLt inp cut)
  else if relate = "<=" then notE (valueLt cut inp)
  else if relate = "=" then .ok (pyEq inp cut)
  else .error .keyError

/-- The warning/OK tail of `eval_status` (lines 200-205): warning tier is
tried when the warning threshold is a number or a string (an unset or
list-valued threshold falls to OK). -/
def evalStatusWarn (value : Value) (warning : Option Value) (op : String) :
    Except PyErr (Nat × String) :=
  match warning with
  | some (.num w) =>
    match compare value op (.num w) with
    | .error e => .error e
    | .ok true => .ok (1, "WARNING")
    | .ok false => .ok (0, "OK")
  | some (.str w) =>
    match compare value op (.str w) with
    | .error e => .error e
    | .ok true => .ok (1, "WARNING")
    | .ok false => .ok (0, "OK")
  | _ => .ok (0, "OK")

/-- Embedding of `eval_status` (lines 195-205): first-match tier chain
critical-numeric, critical-string, warning-numeric, warning-string, else OK.
`isinstance` branches become constructor matches; a raising `compare`
propagates. -/
def eval_status (value : Value) (critical warning : Option Value) (op : String) :
    Except PyErr (Nat × String) :=
  match critical with
  | some (.num c) =>
    match compare value op (.num c) with
    | .error e => .error e
    | .ok true => .ok (2, "CRITICAL")
    | .ok false => evalStatusWarn value warning op
  | some (.str c) =>
    match compare value op (.str c) with
    | .error e => .error e
    | .ok true => .ok (2, "CRITICAL")
    | .ok false => evalStatusWarn value warning op
  | _ => evalStatusWarn value warning op

/-- Embedding of `avg` (lines 157-158): `sum(samples, 0) / len(samples)`;
CPython raises `ZeroDivisionError` on an empty sequence, otherwise true
division yields the exact arithmetic mean (floats abstracted to `ℚ`). -/
def avg (samples : List ℚ) : Except PyErr ℚ :=
  if samples.length = 0 then .error .zeroDivisionError
  else .ok (samples.sum / (samples.length : ℚ))

/-- Python `/` on rationals: raising on a zero divisor like CPython. -/
def pyDiv (a b : ℚ) : Except PyErr ℚ :=
  if b = 0 then .error .zeroDivisionError else .ok (a / b)

/-- A metric rule dictionary. `none` models a key that is absent or set to
`None` (the script treats those alike everywhere it guards; the `op` key is
read unguarded, so its absence is kept observable). -/
structure Rule where
  metric : Option String
  description : Option String
  op : Option String
  crit : Option Value
  warn : Option Value
  deriving DecidableEq, Repr

/-- The five recognized comparison operators (line 134). -/
def validOps : List String := [">", ">=", "=", "<=", "<"]

/-- Embedding of `validate_metric` (lines 119-136): four checks in source
order, each returning `False` (`some false`); passing all four falls off the
end of the Python function, returning `None` (`none`). Reading a missing
`op` key raises `KeyError`. -/
def validate_metric (metric : Rule) (samples : SampleMap) :
    Except PyErr (Option Bool) :=
  match metric.metric with
  | none => .ok (some false)
  | some name =>
    if (samples.lookup name).isNone then .ok (some false)
    else
      match metric.description with
      | none => .ok (some false)
      | some _ =>
        match metric.op with
        | none => .error .keyError
        | some o => if o ∈ validOps then .ok none else .ok (some false)

/-- The `m.setdefault("crit", None); m.setdefault("warn", None);
m.setdefault("op", default)` prologue each processor runs: `crit` and `warn`
already model an absent key as `none`, so only `op` changes. -/
def setDefaults (defOp : String) (m : Rule) : Rule :=
  { m with op := some (m.op.getD defOp) }

/-- Python truthiness of an optional string (`None` and `""` are falsy). -/
def strTruthy : Option String → Bool
  | none => false
  | some s => s != ""

/-- The configuration keys the evaluation pipeline reads. -/
structure DataItem where
  bucket : String
  metrics : List Rule
  deriving DecidableEq, Repr

structure Config where
  all_nodes : Bool
  node : List Rule
  data : List DataItem
  xdcr : Option (List Rule)
  query : Option (List Rule)
  service_prefix : Option String
  service_include_cluster_name : Bool
  service_include_label : Bool
  deriving DecidableEq, Repr

/-- The segment prefix built by lines 175-184 of
`build_service_description`: optional configured prefix, then (if enabled
and truthy) the cluster name, then (if enabled) the label, space-joined. -/
def serviceSegments (cluster_name : Option String) (label : String)
    (config : Config) : String :=
  let service := ""
  let service := match config.service_prefix with
    | some p => service ++ p
    | none => service
  let service := if config.service_include_cluster_name && strTruthy cluster_name
    then service ++ " " ++ cluster_name.getD "" else service
  if config.service_include_label then service ++ " " ++ label else service

/-- Embedding of `build_service_description` (lines 174-191). -/
def build_service_description (description : String) (cluster_name : Option String)
    (label : String) (config : Config) : String :=
  let service := serviceSegments cluster_name label config
  let service := if service ≠ "" then service ++ " - " else service
  service ++ description

/-- One entry appended to the `results` accumulator by a processor. -/
structure CheckResult where
  host : String
  metric : Rule
  value : Value
  label : String
  deriving DecidableEq, Repr

/-- Python `results.append(r)` where `results` may hold `None` (the script
rebinds `results` to the return value of `process_xdcr_stats`, which can
return without a value): appending to `None` raises `AttributeError`. -/
def pyAppend (results : Option (List CheckResult)) (r : CheckResult) :
    Except PyErr (Option (List CheckResult)) :=
  match results with
  | some l => .ok (some (l ++ [r]))
  | none => .error .attributeError

/-- One replication task from `/pools/default/tasks`. -/
structure Task where
  type : String
  id : String
  status : String
  source : String
  deriving DecidableEq, Repr

/-- One node document from `/pools/default`: hostname, advertised services,
whether the `thisNode` key is present, and the document fields that
`process_node_stats` reads as its sample mapping. -/
structure NodeDoc where
  hostname : String
  services : List String
  thisNode : Bool
  doc : SampleMap
  deriving DecidableEq, Repr

/-- A fixed input snapshot: everything the REST API returns during one run.
`xdcrStats` is keyed by (task id, metric name) and holds the `nodeStats`
mapping of the per-node replication statistics document. -/
structure Snapshot where
  tasks : List Task
  clusterName : Option String
  nodes : List NodeDoc
  bucketList : List String
  bucketStats : List (String × SampleMap)
  xdcrStats : List ((String × String) × List (String × List ℚ))
  queryStats : SampleMap
  deriving DecidableEq, Repr

/-- Reading `stats[k]` where a numeric series is consumed (`avg(stats[k])`):
a missing key raises `KeyError`; a scalar under the key would make `sum`
raise `TypeError`. -/
def seriesOf (stats : SampleMap) (k : String) : Except PyErr (List ℚ) :=
  match stats.lookup k with
  | some (.series l) => .ok l
  | some (.scalar _) => .error .typeError
  | none => .error .keyError

/-- `avg(stats[k])`. -/
def avgOf (stats : SampleMap) (k : String) : Except PyErr ℚ :=
  match seriesOf stats k with
  | .error e => .error e
  | .ok l => avg l

/-- The eight operation-count series summed for `total_ops` (line 226). -/
def totalOpsKeys : List String :=
  ["cmd_get", "cmd_set", "incr_misses", "incr_hits",
   "decr_misses", "decr_hits", "delete_misses", "delete_hits"]

/-- The `total_ops` accumulation loop (lines 225-227). -/
def sumAvgs (stats : SampleMap) : List String → ℚ → Except PyErr ℚ
  | [], acc => .ok acc
  | k :: rest, acc =>
    match avgOf stats k with
    | .error e => .error e
    | .ok v => sumAvgs stats rest (acc + v)

/-- The body of the metric loop of `process_data_stats` (lines 213-234):
the four derived metrics are computed by named formula without validation;
any other metric is validated (a `False` verdict skips the rule, modelled
as `.ok none`) and then averaged. -/
def processDataMetric (stats : SampleMap) (host bucket : String) (m0 : Rule) :
    Except PyErr (Option CheckResult) :=
  let m := setDefaults ">=" m0
  if m.metric = some "percent_quota_utilization" then
    match avgOf stats "mem_used" with
    | .error e => .error e
    | .ok a =>
      match avgOf stats "ep_mem_high_wat" with
      | .error e => .error e
      | .ok b =>
        match pyDiv a b with
        | .error e => .error e
        | .ok v => .ok (some ⟨host, m, .num (v * 100), bucket⟩)
  else if m.metric = some "percent_metadata_utilization" then
    match avgOf stats "ep_meta_data_memory" with
    | .error e => .error e
    | .ok a =>
      match avgOf stats "ep_mem_high_wat" with
      | .error e => .error e
      | .ok b =>
        match pyDiv a b with
        | .error e => .error e
        | .ok v => .ok (some ⟨host, m, .num (v * 100), bucket⟩)
  else if m.metric = some "disk_write_queue" then
    match avgOf stats "ep_queue_size" with
    | .error e => .error e
    | .ok a =>
      match avgOf stats "ep_flusher_todo" with
      | .error e => .error e
      | .ok b => .ok (some ⟨host, m, .num (a + b), bucket⟩)
  else if m.metric = some "total_ops" then
    match sumAvgs stats totalOpsKeys 0 with
    | .error e => .error e
    | .ok v => .ok (some ⟨host, m, .num v, bucket⟩)
  else
    match validate_metric m stats with
    | .ok (some false) => .ok none
    | .error e => .error e
    | .ok _ =>
      match avgOf stats (m.metric.getD "") with
      | .error e => .error e
      | .ok v => .ok (some ⟨host, m, .num v, bucket⟩)

/-- The metric loop of `process_data_stats`, threading the (possibly `None`)
`results` accumulator. -/
def dataMetricsLoop (stats : SampleMap) (host bucket : String) :
    List Rule → Option (List CheckResult) →
    Except PyErr (Option (List CheckResult))
  | [], results => .ok results
  | m :: rest, results =>
    match processDataMetric stats host bucket m with
    | .error e => .error e
    | .ok none => dataMetricsLoop stats host bucket rest results
    | .ok (some r) =>
      match pyAppend results r with
      | .error e => .error e
      | .ok results => dataMetricsLoop stats host bucket rest results

/-- The stats fetch of line 210; a request for an unknown bucket fails with
a non-200 status, which `couchbase_request` turns into `sys.exit(2)`. -/
def fetchBucketStats (snap : Snapshot) (bucket : String) :
    Except PyErr SampleMap :=
  match snap.bucketStats.lookup bucket with
  | some s => .ok s
  | none => .error .systemExit

/-- Embedding of `process_data_stats` (lines 209-236), the five-parameter
definition: one stats fetch for `bucket`, then the metric loop. -/
def process_data_stats (snap : Snapshot) (host bucket : String)
    (metrics : List Rule) (results : Option (List CheckResult)) :
    Except PyErr (Option (List CheckResult)) :=
  match fetchBucketStats snap bucket with
  | .error e => .error e
  | .ok stats => dataMetricsLoop stats host bucket metrics results

/-- Outcome of the inner loops of `process_xdcr_stats`: `abort` models the
bare `return` of line 272 (the whole function returns `None`), `cont` keeps
looping with the current accumulator. -/
inductive XdcrFlow where
  | abort
  | cont (results : Option (List CheckResult))
  deriving DecidableEq, Repr

/-- Line 255: `"xdcr {0}/{1}".format(task["id"].split("/")[1], ...[2])`;
an id with fewer than three `/`-separated parts raises `IndexError`. -/
def xdcrLabel (id : String) : Except PyErr String :=
  match pySplit id '/' with
  | _ :: src :: dst :: _ => .ok ("xdcr " ++ src ++ "/" ++ dst)
  | _ => .error .indexError

/-- The replication stats fetch of lines 262-265, keyed by task id and
metric name; a failing request exits via `couchbase_request`. -/
def lookupXdcr (snap : Snapshot) (tid name : String) :
    Except PyErr (List (String × List ℚ)) :=
  match snap.xdcrStats.find? (fun e => e.1.1 == tid && e.1.2 == name) with
  | some e => .ok e.2
  | none => .error .systemExit

/-- The `for node in stats["nodeStats"]` loop (lines 267-275): on the entry
whose host part matches, an empty series triggers the bare `return`
(`abort`); otherwise the series average is appended. -/
def xdcrNodeLoop (host : String) (m : Rule) (label : String) :
    List (String × List ℚ) → Option (List CheckResult) →
    Except PyErr XdcrFlow
  | [], results => .ok (.cont results)
  | (node, series) :: rest, results =>
    if host = hostOf node then
      if series.length = 0 then .ok .abort
      else
        match avg series with
        | .error e => .error e
        | .ok v =>
          match pyAppend results ⟨host, m, .num v, label⟩ with
          | .error e => .error e
          | .ok results => xdcrNodeLoop host m label rest results
    else xdcrNodeLoop host m label rest results

/-- The metric loop of `process_xdcr_stats` for one task (lines 249-275):
a `status` rule emits the task's lifecycle state directly; other rules are
evaluated only for running/paused tasks, against the fetched per-node
series. -/
def xdcrMetricsLoop (snap : Snapshot) (host : String) (task : Task) :
    List Rule → Option (List CheckResult) → Except PyErr XdcrFlow
  | [], results => .ok (.cont results)
  | m0 :: rest, results =>
    let m := setDefaults ">=" m0
    match xdcrLabel task.id with
    | .error e => .error e
    | .ok label =>
      if m.metric = some "status" then
        match pyAppend results ⟨host, m, .str task.status, label⟩ with
        | .error e => .error e
        | .ok results => xdcrMetricsLoop snap host task rest results
      else if task.status = "running" || task.status = "paused" then
        match lookupXdcr snap task.id (m.metric.getD "None") with
        | .error e => .error e
        | .ok nodeStats =>
          match xdcrNodeLoop host m label nodeStats results with
          | .error e => .error e
          | .ok .abort => .ok .abort
          | .ok (.cont results) => xdcrMetricsLoop snap host task rest results
      else xdcrMetricsLoop snap host task rest results

/-- The task loop of `process_xdcr_stats` (lines 241-277): the first xdcr
task with no configured xdcr rules, and any inner `abort`, make the whole
function return `None`; otherwise the accumulator is returned. -/
def xdcrTasksLoop (snap : Snapshot) (host : String)
    (xdcrCfg : Option (List Rule)) :
    List Task → Option (List CheckResult) →
    Except PyErr (Option (List CheckResult))
  | [], results => .ok results
  | task :: rest, results =>
    if task.type = "xdcr" then
      match xdcrCfg with
      | none => .ok none
      | some metrics =>
        match xdcrMetricsLoop snap host task metrics results with
        | .error e => .error e
        | .ok .abort => .ok none
        | .ok (.cont results) => xdcrTasksLoop snap host xdcrCfg rest results
    else xdcrTasksLoop snap host xdcrCfg rest results

/-- Embedding of `process_xdcr_stats` (lines 240-277). -/
def process_xdcr_stats (snap : Snapshot) (host : String) (tasks : List Task)
    (config : Config) (results : Option (List CheckResult)) :
    Except PyErr (Option (List CheckResult)) :=
  xdcrTasksLoop snap host config.xdcr tasks results

/-- The metric loop of `process_node_stats` (lines 312-322): default
operator is `=`, the looked-up node document value is stringified. -/
def renderNum (q : ℚ) : String :=
  if q.den = 1 then toString q.num else toString q.num ++ "/" ++ toString q.den

/-- Deterministic stand-in for CPython's `str()` of a value; the exact
digits of float formatting are abstracted, the function is fixed. -/
def pyStrOfValue : Value → String
  | .num q => renderNum q
  | .str s => s
  | .list l => "[" ++ String.intercalate ", " (l.map renderNum) ++ "]"

def pyStrOfStat : StatValue → String
  | .scalar v => pyStrOfValue v
  | .series l => pyStrOfValue (.list l)

def nodeMetricsLoop (host : String) (stats : SampleMap) :
    List Rule → Option (List CheckResult) →
    Except PyErr (Option (List CheckResult))
  | [], results => .ok results
  | m0 :: rest, results =>
    let m := setDefaults "=" m0
    match validate_metric m stats with
    | .error e => .error e
    | .ok (some false) => nodeMetricsLoop host stats rest results
    | .ok _ =>
      match stats.lookup (m.metric.getD "") with
      | none => .error .keyError
      | some sv =>
        match pyAppend results ⟨host, m, .str (pyStrOfStat sv), "node"⟩ with
        | .error e => .error e
        | .ok results => nodeMetricsLoop host stats rest results

/-- Embedding of `process_node_stats` (lines 309-324). -/
def process_node_stats (host : String) (stats : SampleMap) (config : Config)
    (results : Option (List CheckResult)) :
    Except PyErr (Option (List CheckResult)) :=
  nodeMetricsLoop host stats config.node results

/-- Latency-percentile metrics unit-converted at lines 300-301. -/
def queryTimerKeys : List String :=
  ["request_timer.75%", "request_timer.95%", "request_timer.99%"]

/-- Python `value / 1000 / 1000` on a dynamic value. -/
def pyDivValue (v : Value) (d : ℚ) : Except PyErr Value :=
  match v with
  | .num q => if d = 0 then .error .zeroDivisionError else .ok (.num (q / d))
  | _ => .error .typeError

/-- The metric loop of `process_query_stats` (lines 289-303): scalar lookup
(no averaging), nanosecond-to-millisecond conversion for timer metrics. -/
def queryMetricsLoop (stats : SampleMap) (host : String) :
    List Rule → Option (List CheckResult) →
    Except PyErr (Option (List CheckResult))
  | [], results => .ok results
  | m0 :: rest, results =>
    let m := setDefaults ">=" m0
    match validate_metric m stats with
    | .error e => .error e
    | .ok (some false) => queryMetricsLoop stats host rest results
    | .ok _ =>
      match stats.lookup (m.metric.getD "") with
      | none => .error .keyError
      | some sv =>
        let value : Value := match sv with
          | .scalar v => v
          | .series l => .list l
        match (if (m.metric.getD "") ∈ queryTimerKeys
               then pyDivValue value 1000000 else .ok value) with
        | .error e => .error e
        | .ok value =>
          match pyAppend results ⟨host, m, value, "query"⟩ with
          | .error e => .error e
          | .ok results => queryMetricsLoop stats host rest results

/-- Embedding of `process_query_stats` (lines 281-305): with no configured
query rules it logs and returns `None` before touching the accumulator. -/
def process_query_stats (snap : Snapshot) (host : String) (config : Config)
    (results : Option (List CheckResult)) :
    Except PyErr (Option (List CheckResult)) :=
  match config.query with
  | none => .ok none
  | some metrics => queryMetricsLoop snap.queryStats host metrics results

/-- The per-configured-bucket wildcard loop of `main` (lines 443-444). -/
def bucketsLoop (snap : Snapshot) (host : String) (metrics : List Rule) :
    List String → Option (List CheckResult) →
    Except PyErr (Option (List CheckResult))
  | [], results => .ok results
  | bucket :: rest, results =>
    match process_data_stats snap host bucket metrics results with
    | .error e => .error e
    | .ok results => bucketsLoop snap host metrics rest results

/-- The `for item in config["data"]` loop of `main` (lines 440-446). The
`_all` wildcard enumerates the cluster's buckets and processes each; the
non-wildcard branch of line 446 calls `process_data_stats` with six
positional arguments (`host, item["bucket"], item["metrics"], tasks,
config, results`) although the function takes five, so CPython raises
`TypeError` at the call. -/
def dataItemsLoop (snap : Snapshot) (host : String) :
    List DataItem → Option (List CheckResult) →
    Except PyErr (Option (List CheckResult))
  | [], results => .ok results
  | item :: rest, results =>
    if item.bucket = "_all" then
      match bucketsLoop snap host item.metrics snap.bucketList results with
      | .error e => .error e
      | .ok results => dataItemsLoop snap host rest results
    else .error .typeError

/-- The per-node body of `main` (lines 432-449). The return value of
`process_query_stats` is discarded at line 449; its in-place appends are
visible through the shared list, so an early `None` return leaves the
accumulator as it was, and a returned list is the (mutated) accumulator. -/
def processNode (snap : Snapshot) (config : Config) (node : NodeDoc)
    (results : Option (List CheckResult)) :
    Except PyErr (Option (List CheckResult)) :=
  let host := hostOf node.hostname
  match process_node_stats host node.doc config results with
  | .error e => .error e
  | .ok results1 =>
    let afterKv : Except PyErr (Option (List CheckResult)) :=
      if "kv" ∈ node.services then
        match process_xdcr_stats snap host snap.tasks config results1 with
        | .error e => .error e
        | .ok results2 => dataItemsLoop snap host config.data results2
      else .ok results1
    match afterKv with
    | .error e => .error e
    | .ok results3 =>
      if "n1ql" ∈ node.services then
        match process_query_stats snap host config results3 with
        | .error e => .error e
        | .ok (some l) => .ok (some l)
        | .ok none => .ok results3
      else .ok results3

/-- The node loop of `main` (lines 427-449): without `--all-nodes`, nodes
lacking the `thisNode` key are skipped. -/
def nodesLoop (snap : Snapshot) (config : Config) :
    List NodeDoc → Option (List CheckResult) →
    Except PyErr (Option (List CheckResult))
  | [], results => .ok results
  | node :: rest, results =>
    if config.all_nodes = false && node.thisNode = false then
      nodesLoop snap config rest results
    else
      match processNode snap config node results with
      | .error e => .error e
      | .ok results => nodesLoop snap config rest results

/-- The evaluation pipeline of `main` (lines 412-449) from a fixed input
snapshot to the accumulated results list. -/
def mainRun (snap : Snapshot) (config : Config) :
    Except PyErr (Option (List CheckResult)) :=
  nodesLoop snap config snap.nodes (some [])

/-- Numeric effect of `pretty_number` (lines 145-153): rounding to at most
two decimal places (the digit-string manipulation and float tie-breaking
are abstracted to exact decimal rounding). -/
def pretty_number (q : ℚ) : ℚ :=
  ((round (q * 100) : ℤ) : ℚ) / 100

/-- The per-result computation of `send_nagios` (lines 369-386): a numeric
value is prettied, then the service description, the evaluated status and
the `"{status} - {metric}: {value}"` message are produced. A `None`
description reaches `service += description` and raises `TypeError`. -/
def emitTuple (cluster_name : Option String) (config : Config)
    (r : CheckResult) : Except PyErr (String × Nat × String) :=
  let value : Value := match r.value with
    | .num q => .num (pretty_number q)
    | v => v
  match r.metric.description with
  | none => .error .typeError
  | some desc =>
    let service := build_service_description desc cluster_name r.label config
    match eval_status value r.metric.crit r.metric.warn (r.metric.op.getD "") with
    | .error e => .error e
    | .ok (status, text) =>
      .ok (service, status,
           text ++ " - " ++ (r.metric.metric.getD "None") ++ ": "
                ++ pyStrOfValue value)

/-- The loop of `send_nagios` over all accumulated results. -/
def emittedTuples (cluster_name : Option String) (config : Config) :
    List CheckResult → Except PyErr (List (String × Nat × String))
  | [] => .ok []
  | r :: rest =>
    match emitTuple cluster_name config r with
    | .error e => .error e
    | .ok t =>
      match emittedTuples cluster_name config rest with
      | .error e => .error e
      | .ok ts => .ok (t :: ts)

/-- The whole run: `main`'s evaluation pipeline followed by `send_nagios`'s
tuple computation (iterating a `None` accumulator raises `TypeError`). -/
def pipelineTuples (snap : Snapshot) (config : Config) :
    Except PyErr (List (String × Nat × String)) :=
  match mainRun snap config with
  | .error e => .error e
  | .ok none => .error .typeError
  | .ok (some results) => emittedTuples snap.clusterName config results

/-- The command-line arguments of the script (`-a -d -n -C -H -M -v`);
`store_true` flags are booleans, value flags are `None` when not given. -/
structure Args where
  all_nodes : Bool
  dump_services : Bool
  no_metrics : Bool
  couchbase_host : Option String
  monitor_host : Option String
  monitor_type : Option String
  verbose : Bool
  deriving DecidableEq, Repr

/-- The configuration keys touched by the override block, as loaded from
YAML (`none` models an absent key). -/
structure ConfigDict where
  all_nodes : Option Bool
  dump_services : Option Bool
  send_metrics : Option Bool
  couchbase_host : Option String
  monitor_host : Option String
  monitor_type : Option String
  deriving DecidableEq, Repr

/-- Embedding of the argument-override block of `load_config`
(lines 58-74). Each `if args.x:` guard is Python truthiness, so an empty
string given to a value flag skips its override. The `-M` branch
(line 74) evaluates `conifg["monitor_type"]`, a misspelled, undefined
name, so reaching it raises `NameError` (and even absent the typo the
line computes a subtraction, not an assignment). The `-v` branch only
mutates the logging subconfiguration and is not modelled. -/
def applyOverrides (args : Args) (config : ConfigDict) :
    Except PyErr ConfigDict :=
  let config := if args.all_nodes then { config with all_nodes := some true }
    else config
  let config := if args.dump_services then { config with dump_services := some true }
    else config
  let config := if args.no_metrics then { config with send_metrics := some false }
    else config
  let config := if strTruthy args.couchbase_host then
    { config with couchbase_host := args.couchbase_host } else config
  let config := if strTruthy args.monitor_host then
    { config with monitor_host := args.monitor_host } else config
  if strTruthy args.monitor_type then .error .nameError else .ok config

/-! Concrete fixtures used by the closed evaluation theorems below. -/

/-- A plain data-bucket rule on the raw metric `curr_items`. -/
def ruleCurrItems : Rule :=
  ⟨some "curr_items", some "Items", none, some (.num 90), none⟩

/-- `ruleCurrItems` after the data-processor defaults. -/
def ruleCurrItemsD : Rule :=
  ⟨some "curr_items", some "Items", some ">=", some (.num 90), none⟩

/-- A configuration with one wildcard data entry. -/
def cfgWild : Config :=
  ⟨false, [], [⟨"_all", [ruleCurrItems]⟩], none, none, none, false, false⟩

/-- The same configuration with one explicitly named data bucket. -/
def cfgNamed : Config :=
  ⟨false, [], [⟨"b1", [ruleCurrItems]⟩], none, none, none, false, false⟩

/-- A snapshot with one kv node and two buckets present in the cluster. -/
def snapTwoBuckets : Snapshot :=
  ⟨[], none, [⟨"h1:8091", ["kv"], true, []⟩], ["b1", "b2"],
   [("b1", [("curr_items", .series [10])]),
    ("b2", [("curr_items", .series [20, 30])])],
   [], []⟩

/-- An xdcr rule on the raw replication metric `xdcr_ops`. -/
def ruleXdcrOps : Rule :=
  ⟨some "xdcr_ops", some "XDCR ops", none, none, none⟩

/-- Two running replication tasks; the first one's per-node series for the
local host is empty, the second one's is not. -/
def tasksTwo : List Task :=
  [⟨"xdcr", "g1/s1/d1", "running", "s1"⟩,
   ⟨"xdcr", "g2/s2/d2", "running", "s2"⟩]

/-- A configuration with xdcr rules and a wildcard data entry. -/
def cfgXdcr : Config :=
  ⟨false, [], [⟨"_all", [ruleCurrItems]⟩], some [ruleXdcrOps], none,
   none, false, false⟩

/-- Snapshot for the empty-series scenario: the stats document for the
first task holds an empty series for this host, the second task's holds a
non-empty one. -/
def snapEmptySeries : Snapshot :=
  ⟨tasksTwo, none, [⟨"h1:8091", ["kv"], true, []⟩], ["b1"],
   [("b1", [("curr_items", .series [10])])],
   [(("g1/s1/d1", "xdcr_ops"), [("h1:8091", [])]),
    (("g2/s2/d2", "xdcr_ops"), [("h1:8091", [7])])],
   []⟩

/-- A result accumulated before `process_xdcr_stats` runs. -/
def resultNodeOk : CheckResult :=
  ⟨"h1", ⟨some "status", some "Node status", some "=", none, none⟩,
   .str "healthy", "node"⟩

/-- Builder configuration of the first C6 example: prefix `P`, cluster name
and label both included. -/
def cfgPrefixed : Config := ⟨false, [], [], none, none, some "P", true, true⟩

/-- Builder configuration of the second C6 example: no prefix, both include
flags off. -/
def cfgBare : Config := ⟨false, [], [], none, none, none, false, false⟩

/-- An empty configuration dictionary for the override theorems. -/
def emptyConfigDict : ConfigDict := ⟨none, none, none, none, none, none⟩

/-! Helper lemmas. -/

/-- The warning/OK tail never produces a CRITICAL verdict. -/
theorem evalStatusWarn_not_critical (v : Value) (w : Option Value) (op : String) :
    evalStatusWarn v w op ≠ .ok (2, "CRITICAL") := by
  rcases w with _ | wv
  · simp [evalStatusWarn]
  · rcases wv with q | s | l
    · rcases h : compare v op (.num q) with e | b
      · simp [evalStatusWarn, h]
      · rcases b <;> simp [evalStatusWarn, h]
    · rcases h : compare v op (.str s) with e | b
      · simp [evalStatusWarn, h]
      · rcases b <;> simp [evalStatusWarn, h]
    · simp [evalStatusWarn]

/-- `validate_metric` can only return `False`, fall off the end (`None`),
or raise `KeyError` on a missing `op` key. -/
theorem validate_metric_cases (m : Rule) (s : SampleMap) :
    validate_metric m s = .ok (some false) ∨ validate_metric m s = .ok none ∨
    validate_metric m s = .error .keyError := by
  rcases m with ⟨mm, md, mo, mc, mw⟩
  rcases mm with _ | n
  · left; rfl
  · by_cases hl : (s.lookup n).isNone
    · left; simp [validate_metric, hl]
    · rcases md with _ | d
      · left; simp [validate_metric, hl]
      · rcases mo with _ | o
        · right; right; simp [validate_metric, hl]
        · by_cases ho : o ∈ validOps
          · right; left; simp [validate_metric, hl, ho]
          · left; simp [validate_metric, hl, ho]

/-- `setDefaults` only touches the `op` key. -/
theorem setDefaults_metric (d : String) (m : Rule) :
    (setDefaults d m).metric = m.metric := rfl

/-! Theorems settling the claims. -/

/-- C4: `eval_status` tests the tiers in strict first-match order
(critical-numeric, critical-string, warning-numeric, warning-string,
else OK), so severity is monotonic: with both thresholds unset the result
is always `(0, OK)`; a value satisfying the critical condition (the
critical threshold is a number or a string and the comparison holds)
always yields `(2, CRITICAL)`, never WARNING or OK; and a CRITICAL verdict
occurs only when the critical condition holds, so a value satisfying only
the warning condition never yields CRITICAL. -/
theorem evalStatus_tiers :
    (∀ v op, eval_status v none none op = .ok (0, "OK")) ∧
    (∀ v (q : ℚ) w op, compare v op (.num q) = .ok true →
      eval_status v (some (.num q)) w op = .ok (2, "CRITICAL")) ∧
    (∀ v (s : String) w op, compare v op (.str s) = .ok true →
      eval_status v (some (.str s)) w op = .ok (2, "CRITICAL")) ∧
    (∀ v crit w op, eval_status v crit w op = .ok (2, "CRITICAL") →
      ∃ c, crit = some c ∧ compare v op c = .ok true) := by
  refine ⟨fun v op => rfl, ?_, ?_, ?_⟩
  · intro v q w op h
    simp [eval_status, h]
  · intro v s w op h
    simp [eval_status, h]
  · intro v crit w op h
    rcases crit with _ | cv
    · exact absurd h (evalStatusWarn_not_critical v w op)
    · rcases cv with q | s | l
      · rcases hc : compare v op (.num q) with e | b
        · simp [eval_status, hc] at h
        · rcases b
          · rw [eval_status, hc] at h
            exact absurd h (evalStatusWarn_not_critical v w op)
          · exact ⟨.num q, rfl, hc⟩
      · rcases hc : compare v op (.str s) with e | b
        · simp [eval_status, hc] at h
        · rcases b
          · rw [eval_status, hc] at h
            exact absurd h (evalStatusWarn_not_critical v w op)
          · exact ⟨.str s, rfl, hc⟩
      · exact absurd h (evalStatusWarn_not_critical v w op)

/-- Witness for C4 at a concrete input: 95 against critical threshold 90
under `>=` is CRITICAL. -/
theorem evalStatus_tiers_witness :
    eval_status (.num 95) (some (.num 90)) none ">=" = .ok (2, "CRITICAL") :=
  evalStatus_tiers.2.1 (.num 95) 90 none ">=" (by with_unfolding_all rfl)

/-- C3 counterexample: a string value against a numeric critical threshold
under the (default) `>=` operator does not silently fall through — the
evaluator raises `TypeError`, as CPython 3 forbids ordering comparisons
between `str` and a number. -/
theorem typeMismatch_raises :
    eval_status (.str "running") (some (.num 90)) none ">=" =
      .error .typeError := rfl

/-- C3 amended: a type-mismatched threshold tier fails to trigger and
evaluation falls through to the next tier (or OK) only under the equality
operator `=`; under the ordering operators `>`, `>=`, `<`, `<=` a
string/number mismatch raises `TypeError` instead of falling through. -/
theorem typeMismatch_behavior :
    (∀ s (q : ℚ) w, eval_status (.str s) (some (.num q)) w "=" =
      evalStatusWarn (.str s) w "=") ∧
    (∀ s (q : ℚ) w, eval_status (.num q) (some (.str s)) w "=" =
      evalStatusWarn (.num q) w "=") ∧
    (∀ s (q : ℚ), eval_status (.str s) (some (.num q)) none "=" = .ok (0, "OK")) ∧
    eval_status (.str "running") (some (.num 90)) (some (.str "running")) "="
      = .ok (1, "WARNING") ∧
    (∀ s (q : ℚ) w, eval_status (.str s) (some (.num q)) w ">" = .error .typeError) ∧
    (∀ s (q : ℚ) w, eval_status (.str s) (some (.num q)) w ">=" = .error .typeError) ∧
    (∀ s (q : ℚ) w, eval_status (.str s) (some (.num q)) w "<" = .error .typeError) ∧
    (∀ s (q : ℚ) w, eval_status (.str s) (some (.num q)) w "<=" = .error .typeError) ∧
    (∀ s (q : ℚ) w, eval_status (.num q) (some (.str s)) w ">=" = .error .typeError) :=
  ⟨fun _ _ _ => rfl, fun _ _ _ => rfl, fun _ _ => rfl, rfl,
   fun _ _ _ => rfl, fun _ _ _ => rfl, fun _ _ _ => rfl, fun _ _ _ => rfl,
   fun _ _ _ => rfl⟩

/-- C5: `avg` of the empty sequence raises `ZeroDivisionError` (a domain
error, not zero or NaN); `avg [x] = x`; `avg` is invariant under
permutation of the samples; and a returned value is the arithmetic mean
(it multiplies back to the sum by the length). -/
theorem avg_mean :
    avg ([] : List ℚ) = .error .zeroDivisionError ∧
    (∀ x : ℚ, avg [x] = .ok x) ∧
    (∀ l l' : List ℚ, l.Perm l' → avg l = avg l') ∧
    (∀ (l : List ℚ) (q : ℚ), avg l = .ok q → q * l.length = l.sum) := by
  refine ⟨rfl, ?_, ?_, ?_⟩
  · intro x; simp [avg]
  · intro l l' hp
    unfold avg
    rw [hp.length_eq, hp.sum_eq]
  · intro l q h
    unfold avg at h
    by_cases hl : l.length = 0
    · simp [hl] at h
    · rw [if_neg hl] at h
      injection h with h
      rw [← h]
      exact div_mul_cancel₀ _ (by exact_mod_cast hl)

/-- Witness for C5 at concrete inputs: permutation invariance on `[1, 2]`
and the mean characterization on `[2, 4]` with mean `3`. -/
theorem avg_mean_witness :
    avg [(1 : ℚ), 2] = avg [2, 1] ∧
    (3 : ℚ) * (([2, 4] : List ℚ).length) = ([2, 4] : List ℚ).sum :=
  ⟨avg_mean.2.2.1 _ _ (by decide),
   avg_mean.2.2.2 [2, 4] 3 (by with_unfolding_all rfl)⟩

/-- C6: `build_service_description` is a pure concatenation ending in the
description, preceded by the literal separator `" - "` exactly when a
non-empty prefix/cluster/label segment string was emitted; on
(`"Memory"`, `"prod"`, `"bucket1"`) with prefix `P` and both include flags
on it returns `"P prod bucket1 - Memory"`, and with no prefix and both
flags off it returns exactly `"Memory"`. -/
theorem build_service_description_shape :
    (∀ (d : String) (cn : Option String) (lbl : String) (cfg : Config),
      ∃ pre, build_service_description d cn lbl cfg = pre ++ d ∧
        (pre = "" ∨ ∃ seg, seg ≠ "" ∧ pre = seg ++ " - ")) ∧
    build_service_description "Memory" (some "prod") "bucket1" cfgPrefixed
      = "P prod bucket1 - Memory" ∧
    build_service_description "Memory" (some "prod") "bucket1" cfgBare
      = "Memory" := by
  refine ⟨?_, rfl, rfl⟩
  intro d cn lbl cfg
  refine ⟨if serviceSegments cn lbl cfg ≠ "" then serviceSegments cn lbl cfg ++ " - "
          else serviceSegments cn lbl cfg, rfl, ?_⟩
  by_cases h : serviceSegments cn lbl cfg = ""
  · left; simp [h]
  · right; exact ⟨serviceSegments cn lbl cfg, h, if_pos h⟩

/-- C7: `validate_metric` returns `False` — and in particular does not
raise — whenever the rule's metric name is unset, the metric is absent
from the sample mapping, the description is unset, or the operator key
holds a value outside the recognized five (such as `"!="`). -/
theorem validate_rejects (m : Rule) (samples : SampleMap)
    (h : m.metric = none ∨
         (∃ n, m.metric = some n ∧ samples.lookup n = none) ∨
         m.description = none ∨
         (∃ o, m.op = some o ∧ o ∉ validOps)) :
    validate_metric m samples = .ok (some false) ∧
    ∀ e, validate_metric m samples ≠ .error e := by
  suffices hmain : validate_metric m samples = .ok (some false) by
    exact ⟨hmain, fun e he => by rw [hmain] at he; cases he⟩
  rcases m with ⟨mm, md, mo, mc, mw⟩
  rcases hm : mm with _ | name
  · rfl
  · rcases hl : samples.lookup name with _ | sv
    · simp [validate_metric, hl]
    · rcases h with h | ⟨n, hn, hln⟩ | hd | ⟨o, ho, hov⟩
      · simp [hm] at h
      · rw [hm] at hn
        injection hn with hn
        rw [← hn, hl] at hln
        cases hln
      · dsimp only at hd
        subst hd
        simp [validate_metric, hl]
      · dsimp only at ho
        subst ho
        rcases md with _ | dsc
        · simp [validate_metric, hl]
        · simp [validate_metric, hl, hov]

/-- Witness for C7: the `"!="` operator is rejected without raising. -/
theorem validate_rejects_witness :
    validate_metric ⟨some "x", some "d", some "!=", none, none⟩
      [("x", .scalar (.num 1))] = .ok (some false) :=
  (validate_rejects _ _ (Or.inr (Or.inr (Or.inr ⟨"!=", rfl, by decide⟩)))).1

/-- C10: `validate_metric` never returns `True`: a rule passing all four
checks falls off the end of the function and returns `None`; accordingly a
non-derived data rule is skipped by `process_data_stats` exactly when
`validate_metric` returns the literal `False`. -/
theorem validate_never_true :
    (∀ m samples, validate_metric m samples ≠ .ok (some true)) ∧
    (∀ m samples n sv d o, m.metric = some n → samples.lookup n = some sv →
      m.description = some d → m.op = some o → o ∈ validOps →
      validate_metric m samples = .ok none) ∧
    (∀ stats host bucket m,
      m.metric ≠ some "percent_quota_utilization" →
      m.metric ≠ some "percent_metadata_utilization" →
      m.metric ≠ some "disk_write_queue" →
      m.metric ≠ some "total_ops" →
      (processDataMetric stats host bucket m = .ok none ↔
       validate_metric (setDefaults ">=" m) stats = .ok (some false))) := by
  refine ⟨?_, ?_, ?_⟩
  · intro m samples h
    rcases validate_metric_cases m samples with hc | hc | hc <;> simp [hc] at h
  · intro m samples n sv d o hm hl hd ho hov
    rcases m with ⟨mm, md, mo, mc, mw⟩
    dsimp only at hm hd ho
    subst hm; subst hd; subst ho
    simp [validate_metric, hl, hov]
  · intro stats host bucket m h1 h2 h3 h4
    simp only [processDataMetric, setDefaults_metric]
    rw [if_neg h1, if_neg h2, if_neg h3, if_neg h4]
    rcases hv : validate_metric (setDefaults ">=" m) stats with e | ov
    · simp
    · rcases ov with _ | b
      · rcases ha : avgOf stats (m.metric.getD "") with e | v <;> simp [ha]
      · rcases b
        · simp
        · rcases ha : avgOf stats (m.metric.getD "") with e | v <;> simp [ha]

/-- Witness for C10: a well-formed rule whose metric exists yields `None`
(not `True`) from `validate_metric`. -/
theorem validate_never_true_witness :
    validate_metric ⟨some "x", some "d", some ">=", none, none⟩
      [("x", .scalar (.num 1))] = .ok none ∧
    validate_metric ⟨some "x", some "d", some ">=", none, none⟩
      [("x", .scalar (.num 1))] ≠ .ok (some true) :=
  ⟨validate_never_true.2.1 _ _ "x" (.scalar (.num 1)) "d" ">=" rfl rfl rfl rfl
    (by decide),
   validate_never_true.1 _ _⟩

/-- C1: evaluation of the data-bucket dispatch of `main` at a concrete
snapshot. With a `_all` wildcard entry the run enumerates the cluster's
buckets and appends one evaluation result per bucket per valid rule (here:
`b1` with mean 10 and `b2` with mean 25). With an explicitly named bucket,
however, line 446 calls the five-parameter `process_data_stats` with six
positional arguments (`tasks` is passed extra), so the run raises
`TypeError` instead of fetching that bucket's stats. -/
theorem data_dispatch_eval :
    mainRun snapTwoBuckets cfgWild =
      .ok (some [⟨"h1", ruleCurrItemsD, .num 10, "b1"⟩,
                 ⟨"h1", ruleCurrItemsD, .num 25, "b2"⟩]) ∧
    mainRun snapTwoBuckets cfgNamed = .error .typeError :=
  ⟨by with_unfolding_all rfl, by with_unfolding_all rfl⟩

/-- C2: evaluation of `process_xdcr_stats` at a concrete snapshot with two
running replication tasks, the first of which has an empty per-node series
for the local host. The bare `return` of line 272 makes the whole function
return `None`: the second task is never processed and the accumulated
results list passed in (`[resultNodeOk]`) is discarded, `main` rebinding
`results` to `None`; the subsequent data-bucket pass then raises
`AttributeError` appending to `None`, so the rest of the run does not
continue either. -/
theorem xdcr_empty_series_eval :
    process_xdcr_stats snapEmptySeries "h1" tasksTwo cfgXdcr
      (some [resultNodeOk]) = .ok none ∧
    mainRun snapEmptySeries cfgXdcr = .error .attributeError :=
  ⟨by with_unfolding_all rfl, by with_unfolding_all rfl⟩

/-- C8: the evaluation pipeline from a fixed input snapshot to the emitted
(service description, severity, message) tuples is a pure function of the
snapshot and the configuration: two runs over equal inputs produce equal
outputs. -/
theorem pipeline_deterministic :
    ∀ (snap snap' : Snapshot) (config config' : Config),
      snap = snap' → config = config' →
      pipelineTuples snap config = pipelineTuples snap' config' ∧
      mainRun snap config = mainRun snap' config' := by
  intro snap snap' config config' h1 h2
  subst h1; subst h2
  exact ⟨rfl, rfl⟩

/-- Witness for C8: two runs over the two-bucket snapshot agree. -/
theorem pipeline_deterministic_witness :
    pipelineTuples snapTwoBuckets cfgWild = pipelineTuples snapTwoBuckets cfgWild :=
  (pipeline_deterministic snapTwoBuckets snapTwoBuckets cfgWild cfgWild rfl rfl).1

/-- C9 counterexample: an invocation that supplies `-M` (and `-C`, `-H`)
with an empty string is falsy under the `if args.x:` guards, so
`load_config` neither raises `NameError` nor applies the `-C`/`-H`
overrides — the configuration comes back unchanged. -/
theorem override_empty_values :
    applyOverrides ⟨false, false, false, some "", some "", some "", false⟩
      emptyConfigDict = .ok emptyConfigDict := rfl

/-- C9 amended: supplying `-M` with a non-empty value makes the override
block raise `NameError` (line 74 references the undefined name `conifg`)
before the override takes effect, so `monitor_type` is never overridden;
when `-M` is absent or empty, the block returns the configuration with
`-a`, `-d`, `-n` applied whenever given and `-C`, `-H` applied exactly
when their value is non-empty, `monitor_type` untouched. -/
theorem override_behavior :
    (∀ (a : Args) (c : ConfigDict) v, a.monitor_type = some v → v ≠ "" →
      applyOverrides a c = .error .nameError) ∧
    (∀ (a : Args) (c : ConfigDict), strTruthy a.monitor_type = false →
      applyOverrides a c = .ok
        { c with
          all_nodes := if a.all_nodes then some true else c.all_nodes,
          dump_services := if a.dump_services then some true else c.dump_services,
          send_metrics := if a.no_metrics then some false else c.send_metrics,
          couchbase_host := if strTruthy a.couchbase_host then a.couchbase_host
            else c.couchbase_host,
          monitor_host := if strTruthy a.monitor_host then a.monitor_host
            else c.monitor_host }) := by
  constructor
  · intro a c v hv hne
    have ht : strTruthy a.monitor_type = true := by
      rw [hv]; simpa [strTruthy] using hne
    simp [applyOverrides, ht]
  · intro a c hf
    rcases a with ⟨aa, ad, an, ac, am, amt, av⟩
    dsimp only at hf ⊢
    rcases aa <;> rcases ad <;> rcases an <;>
      rcases hc : strTruthy ac <;> rcases hm : strTruthy am <;>
      simp [applyOverrides, hf, hc, hm]

/-- Witness for C9 amended: a non-empty `-M` value raises `NameError`;
with only `-a` given the configuration gains `all_nodes := true` and
nothing else. -/
theorem override_behavior_witness :
    applyOverrides ⟨true, false, true, some "db", none, some "graphite", false⟩
      emptyConfigDict = .error .nameError ∧
    applyOverrides ⟨true, false, false, none, none, none, false⟩
      emptyConfigDict = .ok ⟨some true, none, none, none, none, none⟩ :=
  by
  constructor
  · exact override_behavior.1 _ _ "graphite" rfl (by decide)
  · simpa using override_behavior.2
      ⟨true, false, false, none, none, none, false⟩ emptyConfigDict rfl

end CheckCouchbase
